import Mathlib

/-!
Shallow embedding of `src/scripts/crawl_news.py`, a crawler that extracts one
headline news item per category from Naver news section pages, enriches it from
the article page, and stages one record per (day, category) into a Firestore
batch.

Modelling conventions:
* A parsed page (`BeautifulSoup` object) is a `Soup`: an association list from
  CSS selector strings to the list of matching elements in document order.
  `Soup.select` returns that list (empty when the selector has no entry);
  `Soup.selectOne` is `select_one`, the first match in document order.
* An element (`bs4.Tag`) is an `Elem`: its attribute list, its
  `get_text(strip=True)` text, and the attribute lists of its descendant
  `<img>` elements in document order (the latter is consulted only by the
  spec-side image policy, never by the code).
* Network fetches are external: a fetched page is `Option Soup`, `none` when
  `requests` raised (timeout, transport error, non-success status).
* Python's `a or b` on strings (empty string falsy) is `pyOr`; `bs4.Tag` is
  always truthy when present, so `select_one(A) or select_one(B)` is
  `pyOrOpt`.
* `datetime.now()` values are external inputs: `save_to_firestore` takes the
  `today` string that line 207 computes once before the loop.
-/

namespace CrawlNews

/-- An HTML element: attributes, stripped visible text, and the attribute
lists of its descendant `img` tags in document order. -/
structure Elem where
  attrs : List (String × String)
  text : String
  imgs : List (List (String × String))
deriving DecidableEq, Repr

/-- Attribute lookup with default, `Tag.get(key, default)` (line 102, 112, 138, 168). -/
def attrGet (attrs : List (String × String)) (k d : String) : String :=
  match attrs.find? (fun p => p.1 == k) with
  | some p => p.2
  | none => d

/-- `Tag.get(key, default)` on an element. -/
def Elem.get (e : Elem) (k d : String) : String :=
  attrGet e.attrs k d

/-- A parsed page: for each selector string, the matching elements in document
order. Selectors absent from the list match nothing. -/
structure Soup where
  selections : List (String × List Elem)
deriving DecidableEq, Repr

/-- `soup.select(sel)`: all matches in document order. -/
def Soup.select (s : Soup) (sel : String) : List Elem :=
  match s.selections.find? (fun p => p.1 == sel) with
  | some p => p.2
  | none => []

/-- `soup.select_one(sel)`: the first match in document order, if any. -/
def Soup.selectOne (s : Soup) (sel : String) : Option Elem :=
  (s.select sel).head?

/-- Python `a or b` on strings: `b` when `a` is empty (falsy). -/
def pyOr (a b : String) : String :=
  if a = "" then b else a

/-- Python `s.startswith(p)`, character by character. -/
def strStartsWith (s p : String) : Bool :=
  p.toList.isPrefixOf s.toList

/-- Python `a or b` on optional elements (a found `Tag` is always truthy). -/
def pyOrOpt (a b : Option Elem) : Option Elem :=
  match a with
  | some e => some e
  | none => b

/-- The ordered fallback chain of lines 79-100: try each selector with
`select_one` in order, return the first hit; `none` when all fail. -/
def locate (soup : Soup) : List String → Option Elem
  | [] => none
  | sel :: rest =>
    match soup.selectOne sel with
    | some e => some e
    | none => locate soup rest

/-- The four headline selectors of `extract_headline_news`, in source order
(lines 80, 84, 88, 92). -/
def headlinePatterns : List String :=
  [".sa_text_title", ".ct_head_wrap a", ".sa_item a.sa_text_title", "a.sa_text_title"]

/-- The dict built by `extract_headline_news` (lines 114-120). -/
structure Candidate where
  title : String
  link : String
  imageUrl : String
  source : String
  category : String
deriving DecidableEq, Repr

/-- `extract_headline_news(soup, category_key)` (lines 76-123): locate the
headline via the four-selector fallback chain; on success read `href`
(prefixing the canonical origin when it does not start with `http`), the
stripped text as title, and the thumbnail from the two image regions with
`data-src` preferred over `src`. The `source` field is always the empty
string (line 118). -/
def extract_headline_news (soup : Soup) (category_key : String) : Option Candidate :=
  match locate soup headlinePatterns with
  | none => none
  | some headline =>
    let link0 := headline.get "href" ""
    let link := if strStartsWith link0 "http" then link0 else "https://news.naver.com" ++ link0
    let title := headline.text
    let image_url :=
      match pyOrOpt (soup.selectOne ".sa_thumb_inner img") (soup.selectOne ".ct_head_wrap img") with
      | some img => pyOr (img.get "data-src" "") (img.get "src" "")
      | none => ""
    some { title := title, link := link, imageUrl := image_url, source := "", category := category_key }

/-- The dict built by `fetch_article_details` (line 128). -/
structure Details where
  summary : String
  imageUrl : String
  source : String
deriving DecidableEq, Repr

/-- Whitespace characters of Python's ASCII `\s` class. -/
def isWS (c : Char) : Bool :=
  c == ' ' || c == '\t' || c == '\n' || c == '\r' || c == '\x0b' || c == '\x0c'

/-- Sentence-terminal punctuation of the split pattern on line 161. -/
def isTerminal (c : Char) : Bool :=
  c == '.' || c == '?' || c == '!'

/-- `re.sub(r'\s+', ' ', text)` (line 158): each maximal whitespace run
becomes a single space. -/
def collapseWS : List Char → List Char
  | [] => []
  | [c] => if isWS c then [' '] else [c]
  | c :: d :: rest =>
    if isWS c && isWS d then collapseWS (d :: rest)
    else (if isWS c then ' ' else c) :: collapseWS (d :: rest)

/-- Drop a leading whitespace run. -/
def dropWS : List Char → List Char
  | [] => []
  | c :: rest => if isWS c then dropWS rest else c :: rest

/-- `str.strip()`: drop leading and trailing whitespace. -/
def stripStr (l : List Char) : List Char :=
  (dropWS ((dropWS l).reverse)).reverse

/-- Is the most recently read character (head of the reversed current unit) a
sentence terminal? This is the regex lookbehind `(?<=[.?!])`. -/
def headIsTerminal : List Char → Bool
  | c :: _ => isTerminal c
  | [] => false

/-- Scanner state for the sentence split: completed units, the current unit in
reverse, and whether we are inside the whitespace run of a split point. -/
structure SplitSt where
  done : List (List Char)
  cur : List Char
  skipping : Bool
deriving DecidableEq, Repr

/-- One character of `re.split(r'(?<=[.?!])\s+', text)`: a whitespace
character immediately after a terminal closes the current unit and starts
consuming the (maximal) whitespace run; any other character extends the
current unit. -/
def splitStep (st : SplitSt) (c : Char) : SplitSt :=
  if st.skipping then
    if isWS c then st
    else { done := st.done, cur := [c], skipping := false }
  else if isWS c && headIsTerminal st.cur then
    { done := st.done ++ [st.cur.reverse], cur := [], skipping := true }
  else
    { done := st.done, cur := c :: st.cur, skipping := st.skipping }

/-- `re.split(r'(?<=[.?!])\s+', text)` (line 161): split at each maximal
whitespace run immediately following `.`, `?` or `!`. -/
def splitSent (l : List Char) : List (List Char) :=
  let st := l.foldl splitStep { done := [], cur := [], skipping := false }
  st.done ++ [st.cur.reverse]

/-- `' '.join(list)` (line 163). -/
def joinSpace : List (List Char) → List Char
  | [] => []
  | [s] => s
  | s :: t :: rest => s ++ ' ' :: joinSpace (t :: rest)

/-- The minimum sentence length of the filter on line 162 (`len(s.strip()) > 15`). -/
def minSentenceLen : Nat := 15

/-- Lines 158-163: collapse whitespace runs, split into sentence-like units
after terminal punctuation, strip each unit, keep units longer than
`minSentenceLen`, take the first three, join with single spaces. -/
def summarize (text : String) : String :=
  let collapsed := collapseWS text.toList
  let sentences := splitSent collapsed
  let kept := ((sentences.map stripStr).filter (fun s => minSentenceLen < s.length)).take 3
  String.mk (joinSpace kept)

/-- The article-body fallback chain of lines 146-150. -/
def articleBody (soup : Soup) : Option Elem :=
  pyOrOpt (soup.selectOne "#dic_area")
    (pyOrOpt (soup.selectOne "#newsct_article") (soup.selectOne ".newsct_article"))

/-- The Open-Graph image selector of line 166. -/
def ogImageSelector : String := "meta[property=\"og:image\"]"

/-- `fetch_article_details(url)` (lines 126-173), with the fetched page as
input (`none` when the request raised; the `except` on line 170 then leaves
the initial all-empty dict). Source name: logo image `alt`-or-`title`, else
journalist-box link text. Summary: `summarize` of the discovered body's text
(the body text is the element's post-noise-strip `get_text(separator=' ',
strip=True)`). Image: the `og:image` meta tag's `content`, else stays empty. -/
def fetch_article_details (page : Option Soup) : Details :=
  match page with
  | none => { summary := "", imageUrl := "", source := "" }
  | some soup =>
    let source0 :=
      match soup.selectOne ".media_end_head_top_logo img" with
      | some e => pyOr (e.get "alt" "") (e.get "title" "")
      | none => ""
    let source :=
      if source0 = "" then
        match soup.selectOne ".media_end_head_journalist_box a" with
        | some e => e.text
        | none => ""
      else source0
    let summary :=
      match articleBody soup with
      | some body => summarize body.text
      | none => ""
    let imageUrl :=
      match soup.selectOne ogImageSelector with
      | some e => e.get "content" ""
      | none => ""
    { summary := summary, imageUrl := imageUrl, source := source }

/-- The record dict after `crawl_category_news` merges enrichment into the
candidate (lines 189-198; `date`/`createdAt` timestamps are external and not
modelled). -/
structure News where
  title : String
  link : String
  imageUrl : String
  source : String
  category : String
  summary : String
deriving DecidableEq, Repr

/-- The default source label of line 192. -/
def defaultSource : String := "네이버 뉴스"

/-- Lines 191-194: summary is enrichment's summary else the title; source is
enrichment's source else the fixed default; image is enrichment's image when
non-empty, else the candidate's thumbnail. -/
def assembleRecord (cand : Candidate) (details : Details) : News :=
  { title := cand.title, link := cand.link,
    imageUrl := pyOr details.imageUrl cand.imageUrl,
    source := pyOr details.source defaultSource,
    category := cand.category,
    summary := pyOr details.summary cand.title }

/-- `crawl_category_news` (lines 176-202): fetch the listing page, extract the
headline candidate, and when its link is non-empty (Python truthiness on line
189) enrich from the article page fetched at that link. The else branch is
dead code (the extractor's link is never empty, see
`extract_headline_news_link_ne`); there the dict would lack a `summary` key,
modelled as the empty string. -/
def crawl_category_news (listing : Option Soup) (articles : String → Option Soup)
    (category_key : String) : Option News :=
  match listing with
  | none => none
  | some soup =>
    match extract_headline_news soup category_key with
    | none => none
    | some news =>
      if news.link ≠ "" then
        some (assembleRecord news (fetch_article_details (articles news.link)))
      else
        some { title := news.title, link := news.link, imageUrl := news.imageUrl,
               source := news.source, category := news.category, summary := "" }

/-- A category's display name and listing URL (lines 19-36). -/
structure CategoryInfo where
  name : String
  url : String
deriving DecidableEq, Repr

/-- The `CATEGORIES` dict (lines 19-36), in insertion order. -/
def CATEGORIES : List (String × CategoryInfo) :=
  [("economy", { name := "경제", url := "https://news.naver.com/section/101" }),
   ("realestate", { name := "부동산", url := "https://news.naver.com/section/101/260" }),
   ("stock", { name := "주식", url := "https://news.naver.com/section/101/258" }),
   ("it", { name := "IT", url := "https://news.naver.com/section/105" })]

/-- The document identity of line 211: `f"{today}_{news['category']}"`. -/
def docId (today : String) (n : News) : String :=
  today ++ "_" ++ n.category

/-- `save_to_firestore` (lines 205-217): `today` is computed once (line 207)
before the loop; the staged batch pairs each record with its document
identity. The atomic `batch.commit()` is external. -/
def save_to_firestore (today : String) (news_list : List News) : List (String × News) :=
  news_list.map (fun n => (docId today n, n))

/-- The crawl loop of `main` (lines 233-237): one `crawl_category_news` call
per category in order, keeping the successful ones. -/
def newsListOf (listings articles : String → Option Soup) : List News :=
  CATEGORIES.filterMap (fun kv => crawl_category_news (listings kv.2.url) articles kv.1)

/-- The outcome of the persistence step of `main` (lines 239-242). -/
inductive RunOutcome where
  | persisted (batch : List (String × News))
  | nothingToPersist
deriving DecidableEq, Repr

/-- Lines 233-242 of `main`: crawl every category, then either stage the
batch for the write or report the non-error "nothing to persist" outcome. -/
def runMain (listings articles : String → Option Soup) (today : String) : RunOutcome :=
  let news_list := newsListOf listings articles
  if news_list.isEmpty then RunOutcome.nothingToPersist
  else RunOutcome.persisted (save_to_firestore today news_list)

/-! Spec-side definitions, written from the design document's words, for
comparison with the code-side functions above. -/

/-- Written from the design document (representative image policy): prefer the
Open-Graph image meta-tag's content attribute; if absent, fall back to the
first image inside the discovered article body, preferring the lazy-load
attribute (`data-src`) over the standard source attribute (`src`). -/
def specRepresentativeImage (soup : Soup) : String :=
  match soup.selectOne ogImageSelector with
  | some e => e.get "content" ""
  | none =>
    match articleBody soup with
    | some body =>
      match body.imgs.head? with
      | some a => pyOr (attrGet a "data-src" "") (attrGet a "src" "")
      | none => ""
    | none => ""

/-- Written from the design document (summarization): collapse whitespace
runs, split into sentence-like units at whitespace following terminal
punctuation, DISCARD units at or below the minimum length threshold, keep the
first three surviving units in original order, join with single spaces. -/
def specSummarize (text : String) : String :=
  let units := (splitSent (collapseWS text.toList)).map stripStr
  let surviving := units.filter (fun u => !decide (u.length ≤ minSentenceLen))
  String.mk (joinSpace (surviving.take 3))

/-- Written from the design document (merge policy for `source`): the
enrichment's source if non-empty, else the candidate's source if non-empty,
else the fixed default label. -/
def specSourcePolicy (candSource detSource : String) : String :=
  if detSource ≠ "" then detSource
  else if candSource ≠ "" then candSource
  else defaultSource

/-! Concrete inputs used by counterexamples and witnesses. -/

/-- A page with no matches for any selector. -/
def soupEmpty : Soup := { selections := [] }

/-- A headline anchor with a missing `href` attribute. -/
def c1Headline : Elem := { attrs := [], text := "무제 기사", imgs := [] }

/-- A listing page whose first headline selector matches `c1Headline`. -/
def c1Soup : Soup := { selections := [(".sa_text_title", [c1Headline])] }

/-- An article body carrying one image whose lazy-load attribute holds the
real URL and whose `src` holds a placeholder. -/
def c2Body : Elem :=
  { attrs := [], text := "본문 내용",
    imgs := [[("data-src", "https://img.example/real.jpg"),
              ("src", "https://img.example/placeholder.jpg")]] }

/-- An article page with a body but no Open-Graph image tag. -/
def c2Soup : Soup := { selections := [("#dic_area", [c2Body])] }

/-- The Open-Graph meta element of `c2OgSoup`. -/
def c2OgElem : Elem :=
  { attrs := [("content", "https://img.example/og.jpg")], text := "", imgs := [] }

/-- An article page carrying an Open-Graph image tag. -/
def c2OgSoup : Soup := { selections := [(ogImageSelector, [c2OgElem])] }

/-- A body of five sentences: the first two are at most 10 characters, the
last three are longer than the threshold, with internal whitespace runs. -/
def fiveSentenceBody : String :=
  "Hi. No way. The economy grew quickly today. Stocks  rallied   strongly all afternoon.\n\nHousing prices rose sharply once again."

/-- A headline anchor found only by the second selector of the chain. -/
def c4Elem : Elem :=
  { attrs := [("href", "https://n.news.naver.com/article/001/1")], text := "헤드라인", imgs := [] }

/-- A listing page on which only `.ct_head_wrap a` matches. -/
def c4Soup : Soup := { selections := [(".ct_head_wrap a", [c4Elem])] }

/-- A headline anchor with a relative link, matched by the first selector. -/
def c5Elem : Elem := { attrs := [("href", "/article/100")], text := "경제 헤드라인", imgs := [] }

/-- A listing page whose first selector matches `c5Elem`. -/
def c5Soup : Soup := { selections := [(".sa_text_title", [c5Elem])] }

/-- The candidate `extract_headline_news` produces on `c5Soup`. -/
def c5Cand : Candidate :=
  { title := "경제 헤드라인", link := "https://news.naver.com/article/100",
    imageUrl := "", source := "", category := "economy" }

/-- The record `crawl_category_news` produces on `c5Soup` when every article
fetch fails. -/
def c5News : News :=
  { title := "경제 헤드라인", link := "https://news.naver.com/article/100",
    imageUrl := "", source := "네이버 뉴스", category := "economy",
    summary := "경제 헤드라인" }

/-- A first record for the economy category. -/
def c7NewsA : News :=
  { title := "기사 하나", link := "https://news.naver.com/a", imageUrl := "",
    source := "연합뉴스", category := "economy", summary := "요약 하나" }

/-- A second, different record for the same economy category. -/
def c7NewsB : News :=
  { title := "기사 둘", link := "https://news.naver.com/b", imageUrl := "",
    source := "한겨레", category := "economy", summary := "요약 둘" }

/-! Helper lemmas about the fallback chain and the extractor. -/

/-- A selector with at least one match short-circuits the fallback chain:
the result is its first match in document order. -/
theorem locate_cons_hit (soup : Soup) (sel : String) (rest : List String)
    (h : soup.select sel ≠ []) :
    locate soup (sel :: rest) = (soup.select sel).head? := by
  cases hs : soup.select sel with
  | nil => exact absurd hs h
  | cons e es => simp [locate, Soup.selectOne, hs]

/-- A selector with no match defers to the rest of the chain. -/
theorem locate_cons_empty (soup : Soup) (sel : String) (rest : List String)
    (h : soup.select sel = []) :
    locate soup (sel :: rest) = locate soup rest := by
  simp [locate, Soup.selectOne, h]

/-- A block of matchless selectors at the front of the chain is skipped. -/
theorem locate_append_empty (soup : Soup) (pre sels : List String)
    (h : ∀ s ∈ pre, soup.select s = []) :
    locate soup (pre ++ sels) = locate soup sels := by
  induction pre with
  | nil => rfl
  | cons s pre ih =>
    rw [List.cons_append, locate_cons_empty soup s _ (h s (by simp))]
    exact ih (fun t ht => h t (by simp [ht]))

/-- When every selector of the chain has no match, the chain yields nothing. -/
theorem locate_none (soup : Soup) (sels : List String)
    (h : ∀ s ∈ sels, soup.select s = []) :
    locate soup sels = none := by
  induction sels with
  | nil => rfl
  | cons s rest ih =>
    rw [locate_cons_empty soup s rest (h s (by simp))]
    exact ih (fun t ht => h t (by simp [ht]))

/-- Every candidate the extractor produces has an empty source field and
carries the requested category key. -/
theorem extract_headline_news_fields (soup : Soup) (key : String) (cand : Candidate)
    (h : extract_headline_news soup key = some cand) :
    cand.source = "" ∧ cand.category = key := by
  unfold extract_headline_news at h
  cases hl : locate soup headlinePatterns with
  | none => rw [hl] at h; cases h
  | some hd =>
    rw [hl] at h
    injection h with h
    subst h
    exact ⟨rfl, rfl⟩

/-- Every candidate the extractor produces has a non-empty link: an anchor
link starting with `http` is non-empty, and otherwise the canonical origin is
prefixed. -/
theorem extract_headline_news_link_ne (soup : Soup) (key : String) (cand : Candidate)
    (h : extract_headline_news soup key = some cand) : cand.link ≠ "" := by
  unfold extract_headline_news at h
  cases hl : locate soup headlinePatterns with
  | none => rw [hl] at h; cases h
  | some hd =>
    rw [hl] at h
    injection h with h
    have hlink : cand.link = (if strStartsWith (hd.get "href" "") "http" then hd.get "href" ""
          else "https://news.naver.com" ++ hd.get "href" "") := by
      rw [← h]
    rw [hlink]
    by_cases hs : strStartsWith (hd.get "href" "") "http"
    · rw [if_pos hs]
      intro he
      rw [he] at hs
      exact absurd hs (by decide)
    · rw [if_neg hs]
      intro he
      have hlen := congrArg String.length he
      rw [String.length_append] at hlen
      have h22 : ("https://news.naver.com" : String).length = 22 := rfl
      have h0 : ("" : String).length = 0 := rfl
      omega

/-- When extraction succeeds, `crawl_category_news` enriches from the article
page fetched at the candidate's link and assembles the merged record. -/
theorem crawl_category_news_some (soup : Soup) (articles : String → Option Soup)
    (key : String) (cand : Candidate)
    (h : extract_headline_news soup key = some cand) :
    crawl_category_news (some soup) articles key =
      some (assembleRecord cand (fetch_article_details (articles cand.link))) := by
  have hne := extract_headline_news_link_ne soup key cand h
  simp [crawl_category_news, h, hne]

/-- Every record `crawl_category_news` produces carries its category key. -/
theorem crawl_category_news_category (listing : Option Soup)
    (articles : String → Option Soup) (key : String) (n : News)
    (h : crawl_category_news listing articles key = some n) :
    n.category = key := by
  cases listing with
  | none => cases h
  | some soup =>
    cases hext : extract_headline_news soup key with
    | none => simp [crawl_category_news, hext] at h
    | some cand =>
      rw [crawl_category_news_some soup articles key cand hext] at h
      injection h with h
      rw [← h]
      exact (extract_headline_news_fields soup key cand hext).2

/-- C4: `locate` returns the first-in-document-order element matched by the
first selector with at least one result, never consulting later selectors
once one succeeds; when every selector yields zero results it returns
nothing, and the category is then skipped for the run (extraction and the
category crawl yield `none`, a normal value, not an exception). -/
theorem c4_locate_first_pattern_wins :
    (∀ (soup : Soup) (pre : List String) (sel : String) (rest rest' : List String),
      (∀ s ∈ pre, soup.select s = []) → soup.select sel ≠ [] →
      locate soup (pre ++ sel :: rest) = (soup.select sel).head? ∧
      locate soup (pre ++ sel :: rest) = locate soup (pre ++ sel :: rest')) ∧
    (∀ (soup : Soup) (sels : List String),
      (∀ s ∈ sels, soup.select s = []) → locate soup sels = none) ∧
    (∀ (soup : Soup) (articles : String → Option Soup) (key : String),
      locate soup headlinePatterns = none →
      extract_headline_news soup key = none ∧
      crawl_category_news (some soup) articles key = none) := by
  refine ⟨?_, locate_none, ?_⟩
  · intro soup pre sel rest rest' hpre hsel
    have h1 : locate soup (pre ++ sel :: rest) = (soup.select sel).head? := by
      rw [locate_append_empty soup pre _ hpre, locate_cons_hit soup sel rest hsel]
    have h2 : locate soup (pre ++ sel :: rest') = (soup.select sel).head? := by
      rw [locate_append_empty soup pre _ hpre, locate_cons_hit soup sel rest' hsel]
    exact ⟨h1, h1.trans h2.symm⟩
  · intro soup articles key hl
    have he : extract_headline_news soup key = none := by
      unfold extract_headline_news
      rw [hl]
    exact ⟨he, by simp [crawl_category_news, he]⟩

/-- C4 witness: on a page where only the second selector matches, `locate`
returns its match whatever follows; on a page with no matches at all it
returns nothing. -/
theorem c4_witness :
    locate c4Soup ([".sa_text_title"] ++ ".ct_head_wrap a" ::
        [".sa_item a.sa_text_title", "a.sa_text_title"]) = some c4Elem ∧
    locate soupEmpty headlinePatterns = none := by
  constructor
  · have h := (c4_locate_first_pattern_wins.1 c4Soup [".sa_text_title"] ".ct_head_wrap a"
      [".sa_item a.sa_text_title", "a.sa_text_title"] [] (by decide) (by decide)).1
    rw [h]
    decide
  · exact c4_locate_first_pattern_wins.2.1 soupEmpty headlinePatterns (by decide)

/-- C6: on fetch or parse failure (the request raised and the except of line
170 ran) the enrichment returns the all-empty result; being a total function
of the fetched page, it never raises into the pipeline. -/
theorem c6_enrich_failure_all_empty :
    fetch_article_details none = { summary := "", imageUrl := "", source := "" } := rfl

/-- C1 counterexample: on a listing page whose headline anchor has no `href`
attribute, extraction does NOT fail: it returns a complete candidate whose
link is the bare canonical origin, contradicting the claim that a missing or
empty href yields `NotFound` with no partial candidate. -/
theorem c1_counterexample :
    c1Headline.get "href" "" = "" ∧
    extract_headline_news c1Soup "economy" =
      some { title := "무제 기사", link := "https://news.naver.com", imageUrl := "",
             source := "", category := "economy" } := by
  constructor
  · rfl
  · decide

/-- C1 amended: when the located headline anchor's href is missing or empty,
extraction still succeeds and the candidate's link is the canonical origin
`https://news.naver.com`; that link being non-empty, enrichment and record
assembly proceed for the category. -/
theorem c1_amended_empty_href (soup : Soup) (key : String) (hd : Elem)
    (hl : locate soup headlinePatterns = some hd)
    (hhref : hd.get "href" "" = "") :
    ∃ cand, extract_headline_news soup key = some cand ∧
      cand.link = "https://news.naver.com" ∧
      ∀ articles : String → Option Soup,
        crawl_category_news (some soup) articles key =
          some (assembleRecord cand (fetch_article_details (articles cand.link))) := by
  have hstarts : strStartsWith "" "http" = false := by decide
  have happend : "https://news.naver.com" ++ ("" : String) = "https://news.naver.com" := by decide
  have hx : extract_headline_news soup key =
      some { title := hd.text, link := "https://news.naver.com",
             imageUrl :=
               match pyOrOpt (soup.selectOne ".sa_thumb_inner img")
                   (soup.selectOne ".ct_head_wrap img") with
               | some img => pyOr (img.get "data-src" "") (img.get "src" "")
               | none => "",
             source := "", category := key } := by
    unfold extract_headline_news
    rw [hl]
    simp only [hhref, hstarts, Bool.false_eq_true, if_false, happend]
  exact ⟨_, hx, rfl, fun articles => crawl_category_news_some soup articles key _ hx⟩

/-- C1 amended witness: the amended statement at the concrete page whose
headline anchor has no href. -/
theorem c1_witness :
    ∃ cand, extract_headline_news c1Soup "economy" = some cand ∧
      cand.link = "https://news.naver.com" ∧
      ∀ articles : String → Option Soup,
        crawl_category_news (some c1Soup) articles "economy" =
          some (assembleRecord cand (fetch_article_details (articles cand.link))) :=
  c1_amended_empty_href c1Soup "economy" c1Headline (by decide) (by decide)

set_option maxRecDepth 10000 in
/-- C2 counterexample: on an article page with no Open-Graph image tag whose
body holds an image with a lazy-load URL, the enrichment's image is empty:
the code never falls back to the first in-body image, contradicting the
claimed fallback. -/
theorem c2_counterexample :
    (fetch_article_details (some c2Soup)).imageUrl = "" ∧
    specRepresentativeImage c2Soup = "https://img.example/real.jpg" ∧
    (fetch_article_details (some c2Soup)).imageUrl ≠ specRepresentativeImage c2Soup := by
  refine ⟨?_, ?_, ?_⟩ <;> decide

/-- C2 amended: the enrichment's representative image is the Open-Graph image
meta-tag's content attribute when the tag is present; when it is absent the
enrichment's image is the empty string (there is no in-body fallback), and
the assembler then retains the listing thumbnail. -/
theorem c2_amended_og_only (soup : Soup) :
    (∀ e, soup.selectOne ogImageSelector = some e →
      (fetch_article_details (some soup)).imageUrl = e.get "content" "") ∧
    (soup.selectOne ogImageSelector = none →
      (fetch_article_details (some soup)).imageUrl = "" ∧
      ∀ cand : Candidate,
        (assembleRecord cand (fetch_article_details (some soup))).imageUrl = cand.imageUrl) := by
  constructor
  · intro e he
    simp [fetch_article_details, he]
  · intro hnone
    have h1 : (fetch_article_details (some soup)).imageUrl = "" := by
      simp [fetch_article_details, hnone]
    refine ⟨h1, fun cand => ?_⟩
    simp [assembleRecord, h1, pyOr]

set_option maxRecDepth 10000 in
/-- C2 amended witness: the amended statement at a page carrying an og:image
tag and at a page without one. -/
theorem c2_witness :
    (fetch_article_details (some c2OgSoup)).imageUrl = "https://img.example/og.jpg" ∧
    (fetch_article_details (some c2Soup)).imageUrl = "" := by
  constructor
  · have h := (c2_amended_og_only c2OgSoup).1 c2OgElem (by decide)
    rw [h]
    decide
  · exact ((c2_amended_og_only c2Soup).2 (by decide)).1

set_option maxRecDepth 10000 in
/-- C3: the code's summary is exactly the spec's pipeline — collapse
whitespace runs to single spaces, split at whitespace following terminal
punctuation, discard units at or below the minimum length threshold, keep the
first three surviving units in order, join with single spaces; and on a
concrete body of five sentences whose first two are below the threshold, the
summary is exactly the next three qualifying sentences. -/
theorem c3_summary_policy :
    (∀ text : String, summarize text = specSummarize text) ∧
    summarize fiveSentenceBody =
      "The economy grew quickly today. Stocks rallied strongly all afternoon. Housing prices rose sharply once again." := by
  constructor
  · intro text
    simp only [summarize, specSummarize]
    have h : ∀ u : List Char,
        decide (minSentenceLen < u.length) = !decide (u.length ≤ minSentenceLen) := by
      intro u
      rw [← decide_not]
      exact decide_eq_decide.mpr Nat.not_le.symm
    have hf : ∀ l : List (List Char),
        l.filter (fun s => decide (minSentenceLen < s.length))
          = l.filter (fun u => !decide (u.length ≤ minSentenceLen)) :=
      fun l => List.filter_congr (fun x _ => h x)
    rw [hf]
  · decide

/-- C5: for every candidate produced by listing extraction and every article
fetch outcome, the assembled record's source is the enrichment's source when
non-empty, otherwise the candidate's source when non-empty, otherwise the
fixed default label (the second case is vacuous: extracted candidates carry
an empty source). -/
theorem c5_source_merge_policy (soup : Soup) (key : String) (cand : Candidate)
    (articles : String → Option Soup) (n : News)
    (hext : extract_headline_news soup key = some cand)
    (hcrawl : crawl_category_news (some soup) articles key = some n) :
    n.source = specSourcePolicy cand.source
      (fetch_article_details (articles cand.link)).source := by
  have hsrc := (extract_headline_news_fields soup key cand hext).1
  rw [crawl_category_news_some soup articles key cand hext] at hcrawl
  injection hcrawl with hn
  rw [← hn, hsrc]
  by_cases hdet : (fetch_article_details (articles cand.link)).source = ""
  · simp [assembleRecord, specSourcePolicy, pyOr, hdet]
  · simp [assembleRecord, specSourcePolicy, pyOr, hdet]

/-- C5 witness: the merge policy at a concrete listing page with every
article fetch failing — the enrichment source is empty, so the record's
source is the fixed default label. -/
theorem c5_witness :
    c5News.source = specSourcePolicy c5Cand.source
      (fetch_article_details ((fun _ => none) c5Cand.link)).source :=
  c5_source_merge_policy c5Soup "economy" c5Cand (fun _ => none) c5News
    (by decide) (by decide)

/-- C7: every identity staged by the writer is built from the single day
string computed once per run (line 207) as today_category, and two records
for the same day and category always receive the same identity. -/
theorem c7_document_identity :
    (∀ (today : String) (l : List News),
      (save_to_firestore today l).map Prod.fst = l.map (docId today)) ∧
    (∀ (today : String) (n1 n2 : News), n1.category = n2.category →
      docId today n1 = docId today n2) := by
  constructor
  · intro today l
    simp [save_to_firestore]
  · intro today n1 n2 h
    unfold docId
    rw [h]

/-- C7 witness: two different records for the same day and category receive
the same document identity. -/
theorem c7_witness : docId "2026-10-12" c7NewsA = docId "2026-10-12" c7NewsB :=
  c7_document_identity.2 "2026-10-12" c7NewsA c7NewsB rfl

/-- C8: when no category yields a record, the writer is never invoked — the
run ends in the non-error nothing-to-persist outcome, which stages no write
of any kind. -/
theorem c8_nothing_to_persist (listings articles : String → Option Soup) (today : String)
    (h : ∀ kv ∈ CATEGORIES, crawl_category_news (listings kv.2.url) articles kv.1 = none) :
    runMain listings articles today = RunOutcome.nothingToPersist := by
  have hnil : newsListOf listings articles = [] := by
    unfold newsListOf
    exact List.filterMap_eq_nil_iff.mpr h
  simp [runMain, hnil]

/-- C8 witness: a run in which every listing fetch fails stages nothing and
reports the nothing-to-persist outcome. -/
theorem c8_witness :
    runMain (fun _ => none) (fun _ => none) "2026-10-12" = RunOutcome.nothingToPersist :=
  c8_nothing_to_persist (fun _ => none) (fun _ => none) "2026-10-12" (fun _ _ => rfl)

/-- Mapping `g` over the values a `filterMap` produces yields a sublist of
mapping `h` over the inputs, whenever each produced value `b` of input `a`
satisfies `g b = h a`. -/
theorem map_filterMap_sublist {α β γ : Type} (f : α → Option β) (g : β → γ) (h : α → γ)
    (hf : ∀ a b, f a = some b → g b = h a) :
    ∀ l : List α, ((l.filterMap f).map g).Sublist (l.map h) := by
  intro l
  induction l with
  | nil => simp
  | cons a l ih =>
    cases hfa : f a with
    | none =>
      rw [List.filterMap_cons_none hfa, List.map_cons]
      exact ih.cons (h a)
    | some b =>
      rw [List.filterMap_cons_some hfa, List.map_cons, List.map_cons, hf a b hfa]
      exact ih.cons₂ (h a)

/-- The categories of the crawled records form a sublist of the configured
category keys, in order. -/
theorem newsListOf_categories_sublist (listings articles : String → Option Soup) :
    ((newsListOf listings articles).map (fun n => n.category)).Sublist
      (CATEGORIES.map Prod.fst) := by
  unfold newsListOf
  exact map_filterMap_sublist _ _ _
    (fun kv n hn => crawl_category_news_category _ _ _ _ hn) CATEGORIES

/-- Appending a category to the fixed day-and-separator string is injective
in the category. -/
theorem docId_cat_injective (today : String) :
    Function.Injective (fun c : String => today ++ "_" ++ c) := by
  intro c1 c2 h
  have hd := congrArg String.data h
  simp only [String.data_append, List.append_assoc] at hd
  exact String.ext (List.append_cancel_left (List.append_cancel_left hd))

/-- C9: the configured category keys are pairwise distinct, each category
contributes at most one record per run, and the document identities staged
into one batch are pairwise distinct — no staged record overwrites another
record of the same batch. -/
theorem c9_batch_ids_nodup (listings articles : String → Option Soup) (today : String) :
    (CATEGORIES.map Prod.fst).Nodup ∧
    (∀ key : String,
      ((newsListOf listings articles).filter (fun n => n.category == key)).length ≤ 1) ∧
    ((save_to_firestore today (newsListOf listings articles)).map Prod.fst).Nodup := by
  have hkeys : (CATEGORIES.map Prod.fst).Nodup := by decide
  have hcats : ((newsListOf listings articles).map (fun n => n.category)).Nodup :=
    (newsListOf_categories_sublist listings articles).nodup hkeys
  refine ⟨hkeys, ?_, ?_⟩
  · intro key
    have h1 : ((newsListOf listings articles).filter (fun n => n.category == key)).length
        = List.count key ((newsListOf listings articles).map (fun n => n.category)) := by
      rw [List.count_eq_countP, List.countP_map, List.countP_eq_length_filter]
      rfl
    rw [h1]
    exact List.nodup_iff_count_le_one.mp hcats key
  · have hmap : (save_to_firestore today (newsListOf listings articles)).map Prod.fst
        = (newsListOf listings articles).map (docId today) := by
      simp [save_to_firestore]
    rw [hmap]
    have hrw : (newsListOf listings articles).map (docId today)
        = ((newsListOf listings articles).map (fun n => n.category)).map
            (fun c => today ++ "_" ++ c) := by
      rw [List.map_map]
      rfl
    rw [hrw]
    exact List.Nodup.map (docId_cat_injective today) hcats

/-- C10: every candidate produced by listing extraction carries an empty
source, so every assembled record's source comes from the article page's
enrichment when that is non-empty and is otherwise the fixed default label —
never from a listing-page region. -/
theorem c10_candidate_source_empty :
    (∀ (soup : Soup) (key : String) (cand : Candidate),
      extract_headline_news soup key = some cand → cand.source = "") ∧
    (∀ (soup : Soup) (articles : String → Option Soup) (key : String) (n : News),
      crawl_category_news (some soup) articles key = some n →
      n.source = pyOr (fetch_article_details (articles n.link)).source defaultSource) := by
  constructor
  · intro soup key cand h
    exact (extract_headline_news_fields soup key cand h).1
  · intro soup articles key n h
    cases hext : extract_headline_news soup key with
    | none => simp [crawl_category_news, hext] at h
    | some cand =>
      rw [crawl_category_news_some soup articles key cand hext] at h
      injection h with h
      rw [← h]
      rfl

/-- C10 witness: the invariant at a concrete listing page, and the record
source of a run whose article fetches all fail. -/
theorem c10_witness :
    c5Cand.source = "" ∧
    c5News.source
      = pyOr (fetch_article_details ((fun _ => none) c5News.link)).source defaultSource :=
  ⟨c10_candidate_source_empty.1 c5Soup "economy" c5Cand (by decide),
   c10_candidate_source_empty.2 c5Soup (fun _ => none) "economy" c5News (by decide)⟩

end CrawlNews
